import Mathlib

/-!
# Verification of `case_duckdb_library.py`

A shallow embedding of the DuckDB library-domain pipeline script
(`src/datafun_05_sql/case_duckdb_library.py`) and proofs about it.

The script is a linear pipeline: resolve the repository root, open a DuckDB
connection, run two SQL scripts (create tables, load data), run two SQL
queries (counts, KPI) printing a formatted report, and close the connection
in a `finally` block.

Modelling choices:
* A filesystem path is a `List String` of components from the root; `.` and
  `..` components may appear in unresolved paths.  `Path.resolve()` is
  modelled as normalisation of `.`/`..` (symlinks are out of scope), and
  `Path.parent` drops the last component (the parent of the root is the
  root, as in `pathlib`).
* The four SQL files are an enumerated type `SqlFile`; the outside world
  (file contents on disk, the reaction of the DuckDB engine to each script and
  query) is a `World` record, and running the pipeline produces the list of
  observable events plus an optional uncaught error, mirroring Python
  exception propagation and `try/finally`.
* Reading a file decodes its bytes strictly as UTF-8 (`read_text
  (encoding="utf-8")`); `utf8Decode` is a full RFC 3629 decoder on byte
  lists.
* Behaviour of the third-party `duckdb.connect` (failure conditions, on-disk
  effect) is not code of this repository; those definitions are modelled
  from the spec and marked as such.
-/

/-! ## Path model and `find_repo_root` -/

/-- `Path.parent`: drop the last component; the parent of the root is the
root itself, as in `pathlib`. -/
def parentDir (p : List String) : List String :=
  p.dropLast

/-- `Path.resolve()` modelled as normalisation of `.` and `..` components
(symlink resolution is out of scope): `..` pops the last real component,
`.` is dropped. -/
def resolve (p : List String) : List String :=
  p.foldl (fun acc c =>
    if c = "." then acc
    else if c = ".." then acc.dropLast
    else acc ++ [c]) []

/-- The filesystem as seen by `find_repo_root`: which directories contain
the root-marker file `pyproject.toml` (`(cur / "pyproject.toml").exists()`). -/
structure MarkerFs where
  marker : List String → Bool

/-- Iterated `parentDir`: the `n`-th ancestor of a directory. -/
def iterParent : Nat → List String → List String
  | 0, p => p
  | n + 1, p => iterParent n (parentDir p)

/-- The `for _ in range(n)` loop of `find_repo_root`: check the current
directory for the marker, else step to the parent, at most `n` times. -/
def findLoop (fs : MarkerFs) : Nat → List String → Option (List String)
  | 0, _ => none
  | n + 1, cur => if fs.marker cur then some cur else findLoop fs n (parentDir cur)

/-- `find_repo_root(start)`: walk upward from `start.resolve()` for at most
10 steps looking for `pyproject.toml`; on failure fall back to
`start.resolve()`. -/
def find_repo_root (fs : MarkerFs) (start : List String) : List String :=
  match findLoop fs 10 (resolve start) with
  | some r => r
  | none => resolve start

lemma iterParent_succ_outer (n : Nat) (p : List String) :
    iterParent (n + 1) p = iterParent n (parentDir p) := rfl

lemma findLoop_eq_none (fs : MarkerFs) :
    ∀ (n : Nat) (cur : List String),
      (∀ i, i < n → fs.marker (iterParent i cur) = false) →
      findLoop fs n cur = none := by
  intro n
  induction n with
  | zero => intro cur _; rfl
  | succ m ih =>
    intro cur h
    have h0 : fs.marker cur = false := h 0 (Nat.succ_pos m)
    have hrest : ∀ i, i < m → fs.marker (iterParent i (parentDir cur)) = false := by
      intro i hi
      have := h (i + 1) (Nat.succ_lt_succ hi)
      simpa [iterParent_succ_outer] using this
    simp [findLoop, h0, ih (parentDir cur) hrest]

lemma findLoop_eq_some (fs : MarkerFs) :
    ∀ (n i : Nat) (cur : List String),
      i < n →
      fs.marker (iterParent i cur) = true →
      (∀ j, j < i → fs.marker (iterParent j cur) = false) →
      findLoop fs n cur = some (iterParent i cur) := by
  intro n
  induction n with
  | zero => intro i cur hi; exact absurd hi (Nat.not_lt_zero i)
  | succ m ih =>
    intro i cur hi hmark hmin
    cases i with
    | zero =>
      simp [findLoop, iterParent] at hmark ⊢
      simp [hmark, iterParent]
    | succ k =>
      have h0 : fs.marker cur = false := hmin 0 (Nat.succ_pos k)
      have hk : fs.marker (iterParent k (parentDir cur)) = true := by
        simpa [iterParent_succ_outer] using hmark
      have hkmin : ∀ j, j < k → fs.marker (iterParent j (parentDir cur)) = false := by
        intro j hj
        have := hmin (j + 1) (Nat.succ_lt_succ hj)
        simpa [iterParent_succ_outer] using this
      have := ih k (parentDir cur) (Nat.lt_of_succ_lt_succ hi) hk hkmin
      simp [findLoop, h0, this, iterParent_succ_outer]

/-- An empty filesystem: no directory contains the marker. -/
def fsNone : MarkerFs := ⟨fun _ => false⟩

/-- A filesystem whose only marker-bearing directory is `/home/u`. -/
def fsHomeU : MarkerFs := ⟨fun p => p == ["home", "u"]⟩

/-! ## The four SQL files -/

/-- The four SQL file constants of the script: `CREATE_TABLES_SQL`,
`LOAD_DATA_SQL`, `COUNTS_SQL`, `KPI_SQL`. -/
inductive SqlFile
  | createTables
  | loadData
  | counts
  | kpi
deriving DecidableEq

/-- `sql_path.name`: the basename of each SQL file, from the path constants
of the script. -/
def fileName : SqlFile → String
  | .createTables => "create_library_tables.sql"
  | .loadData => "load_library_data.sql"
  | .counts => "query_library_counts.sql"
  | .kpi => "query_library_kpi.sql"

/-! ## UTF-8 decoding (`read_text(encoding="utf-8")`) -/

/-- A UTF-8 continuation byte: `0x80..0xBF`. -/
def isCont (b : Nat) : Bool := 0x80 ≤ b && b ≤ 0xBF

/-- Strict UTF-8 decoding of a byte list into a code-point list (RFC 3629:
no overlong forms, no surrogates, max U+10FFFF); `none` models
`UnicodeDecodeError`. -/
def utf8Decode : List Nat → Option (List Nat)
  | [] => some []
  | b :: rest =>
    if b ≤ 0x7F then
      (utf8Decode rest).map (fun cs => b :: cs)
    else if b < 0xC2 then none
    else if b ≤ 0xDF then
      match rest with
      | b2 :: r2 =>
        if isCont b2 then
          (utf8Decode r2).map (fun cs => ((b - 0xC0) * 0x40 + (b2 - 0x80)) :: cs)
        else none
      | [] => none
    else if b ≤ 0xEF then
      match rest with
      | b2 :: b3 :: r3 =>
        let lo2 := if b = 0xE0 then 0xA0 else 0x80
        let hi2 := if b = 0xED then 0x9F else 0xBF
        if (lo2 ≤ b2 && b2 ≤ hi2) && isCont b3 then
          (utf8Decode r3).map
            (fun cs => ((b - 0xE0) * 0x1000 + (b2 - 0x80) * 0x40 + (b3 - 0x80)) :: cs)
        else none
      | _ => none
    else if b ≤ 0xF4 then
      match rest with
      | b2 :: b3 :: b4 :: r4 =>
        let lo2 := if b = 0xF0 then 0x90 else 0x80
        let hi2 := if b = 0xF4 then 0x8F else 0xBF
        if (lo2 ≤ b2 && b2 ≤ hi2) && isCont b3 && isCont b4 then
          (utf8Decode r4).map
            (fun cs => ((b - 0xF0) * 0x40000 + (b2 - 0x80) * 0x1000
              + (b3 - 0x80) * 0x40 + (b4 - 0x80)) :: cs)
        else none
      | _ => none
    else none

/-! ## Values and report formatting -/

/-- A cell value in a DuckDB result row, with the `str()` rendering of Python. -/
inductive Value
  | intV (n : Int)
  | strV (s : String)
  | nullV
deriving DecidableEq

/-- Python `str(v)` on a result cell. -/
def pyStr : Value → String
  | .intV n => toString n
  | .strV s => s
  | .nullV => "None"

/-- The result of `con.execute(query)`: `description` (column name/type
pairs, `c[0]` is the name) and the rows from `fetchall()`. -/
structure QueryResult where
  description : List (String × String)
  rows : List (List Value)

/-- The delimiter line logged around the query title. -/
def delim : String := "===================================="

/-- The titled report block logged by `run_sql_query` after fetching:
delimiter, file name, delimiter, comma-joined column names, then one
comma-joined line per row (the `for row in rows` loop, modelled as a fold
appending one line per iteration). -/
def reportBlock (name : String) (qr : QueryResult) : List String :=
  let cols := (qr.description.map Prod.fst)
  qr.rows.foldl
    (fun acc row => acc ++ [String.intercalate ", " (row.map pyStr)])
    [delim, name, delim, String.intercalate ", " cols]

/-! ## Worlds, events and errors -/

/-- Uncaught Python exceptions relevant to the pipeline. -/
inductive Err
  | connectionError
  | fileNotFound (f : SqlFile)
  | unicodeDecodeError (f : SqlFile)
  | executionError (f : SqlFile) (msg : String)
deriving DecidableEq

/-- Observable events of one pipeline run, in order. -/
inductive Event
  | resolvePaths
  | header
  | mkdirArtifacts
  | connect
  | log (s : String)
  | read (f : SqlFile)
  | execScript (f : SqlFile)
  | execQuery (f : SqlFile)
  | close
deriving DecidableEq

/-- The outside world a run is exposed to: the string form of the resolved
repo root, the conditions under which `duckdb.connect` fails, the bytes of
each SQL file on disk (`none` = absent), and the reaction of the engine to each
script and query. -/
structure World where
  rootStr : String
  storageUnwritable : Bool
  dbCorrupt : Bool
  files : SqlFile → Option (List Nat)
  scriptErr : SqlFile → Option String
  queryRes : SqlFile → Except String QueryResult
  dbMut : SqlFile → Nat → Nat
  dbMutQ : SqlFile → Nat → Nat

/-- The absolute path string of a SQL file: `SQL_DIR / name` with
`SQL_DIR = ROOT_DIR / "sql" / "duckdb"`. -/
def sqlPathStr (w : World) (f : SqlFile) : String :=
  w.rootStr ++ "/sql/duckdb/" ++ fileName f

/-- Modelled from the spec: the third-party `duckdb.connect` (not code of
this repository) "fails with `ConnectionError` when the underlying storage
location is unwritable or the database file is corrupt/incompatible";
otherwise it succeeds. -/
def connectResult (w : World) : Option Err :=
  if w.storageUnwritable || w.dbCorrupt then some Err.connectionError else none

/-! ## The helpers and the pipeline -/

/-- `read_sql`: `sql_path.read_text(encoding="utf-8")` — missing file
raises `FileNotFoundError`, invalid UTF-8 raises `UnicodeDecodeError`,
otherwise the decoded code points are returned. -/
def read_sql (w : World) (f : SqlFile) : Except Err (List Nat) :=
  match w.files f with
  | none => .error (.fileNotFound f)
  | some bs =>
    match utf8Decode bs with
    | none => .error (.unicodeDecodeError f)
    | some cs => .ok cs

/-- `run_sql_script`: log, read the script, submit it to the connection.
Returns the events produced and the uncaught error, if any. -/
def run_sql_script (w : World) (f : SqlFile) : List Event × Option Err :=
  match read_sql w f with
  | .error e => ([Event.log ("RUN SQL script: " ++ sqlPathStr w f)], some e)
  | .ok _ =>
    match w.scriptErr f with
    | some m =>
      ([Event.log ("RUN SQL script: " ++ sqlPathStr w f), Event.read f,
        Event.execScript f], some (.executionError f m))
    | none =>
      ([Event.log ("RUN SQL script: " ++ sqlPathStr w f), Event.read f,
        Event.execScript f], none)

/-- `run_sql_query`: two log lines, read the query, execute and fetch all
rows eagerly, then log the titled report block. -/
def run_sql_query (w : World) (f : SqlFile) : List Event × Option Err :=
  match read_sql w f with
  | .error e =>
    ([Event.log "", Event.log ("RUN SQL query: " ++ sqlPathStr w f)], some e)
  | .ok _ =>
    match w.queryRes f with
    | .error m =>
      ([Event.log "", Event.log ("RUN SQL query: " ++ sqlPathStr w f),
        Event.read f], some (.executionError f m))
    | .ok qr =>
      ([Event.log "", Event.log ("RUN SQL query: " ++ sqlPathStr w f),
        Event.read f, Event.execQuery f]
        ++ (reportBlock (fileName f) qr).map Event.log, none)

/-- The body of the `try` block in `main`: the four stages in program
order, stopping at the first uncaught error. -/
def tryBody (w : World) : List Event × Option Err :=
  match (run_sql_script w SqlFile.createTables).2 with
  | some e => ((run_sql_script w SqlFile.createTables).1, some e)
  | none =>
    match (run_sql_script w SqlFile.loadData).2 with
    | some e =>
      ((run_sql_script w SqlFile.createTables).1
        ++ (run_sql_script w SqlFile.loadData).1, some e)
    | none =>
      match (run_sql_query w SqlFile.counts).2 with
      | some e =>
        ((run_sql_script w SqlFile.createTables).1
          ++ (run_sql_script w SqlFile.loadData).1
          ++ (run_sql_query w SqlFile.counts).1, some e)
      | none =>
        ((run_sql_script w SqlFile.createTables).1
          ++ (run_sql_script w SqlFile.loadData).1
          ++ (run_sql_query w SqlFile.counts).1
          ++ (run_sql_query w SqlFile.kpi).1, (run_sql_query w SqlFile.kpi).2)

/-- `main()`: header log, `ARTIFACTS_DIR.mkdir(parents=True, exist_ok=True)`,
`duckdb.connect` (which may raise before the `try` block is entered), then
the four stages inside `try` with `con.close()` in `finally`. -/
def pipelineMain (w : World) : List Event × Option Err :=
  match connectResult w with
  | some e => ([Event.header, Event.mkdirArtifacts], some e)
  | none =>
    ([Event.header, Event.mkdirArtifacts, Event.connect]
      ++ (tryBody w).1 ++ [Event.close], (tryBody w).2)

/-- One module run: the module-level path constants call `find_repo_root`
before `main` executes. -/
def pipeline (w : World) : List Event × Option Err :=
  (Event.resolvePaths :: (pipelineMain w).1, (pipelineMain w).2)

/-- Stage events in the sense of the control-flow enumeration of the spec. -/
def isStageEvent : Event → Bool
  | .resolvePaths => true
  | .connect => true
  | .execScript _ => true
  | .execQuery _ => true
  | .close => true
  | _ => false

/-! ## On-disk effect of the run -/

/-- The on-disk state the pipeline touches: whether `ARTIFACTS_DIR` exists
and the database file (`none` = absent, `some c` = present with abstract
content `c`). -/
structure FsState where
  artifactsDirExists : Bool
  dbFile : Option Nat
deriving DecidableEq

/-- Effect of one event on the disk.  `mkdirArtifacts` creates the parent
directories (`parents=True, exist_ok=True`); `connect` is modelled from the
spec — the third-party `duckdb.connect` creates the database file if absent
and reuses it without truncation if present; script/query execution mutates
the database content through the engine but never removes the file; all
other events touch nothing. -/
def applyEvent (w : World) (fs : FsState) : Event → FsState
  | .mkdirArtifacts => { fs with artifactsDirExists := true }
  | .connect =>
    match fs.dbFile with
    | none => { fs with dbFile := some 0 }
    | some _ => fs
  | .execScript f => { fs with dbFile := fs.dbFile.map (w.dbMut f) }
  | .execQuery f => { fs with dbFile := fs.dbFile.map (w.dbMutQ f) }
  | _ => fs

/-- The disk state after a full run of `main` from initial state `fs`. -/
def fsAfter (w : World) (fs : FsState) : FsState :=
  ((pipelineMain w).1).foldl (applyEvent w) fs

/-! ## Structural lemmas about the run -/

lemma close_not_mem_run_sql_script (w : World) (f : SqlFile) :
    Event.close ∉ (run_sql_script w f).1 := by
  unfold run_sql_script
  cases read_sql w f with
  | error e => simp
  | ok cs => cases w.scriptErr f <;> simp

lemma close_not_mem_run_sql_query (w : World) (f : SqlFile) :
    Event.close ∉ (run_sql_query w f).1 := by
  unfold run_sql_query
  cases read_sql w f with
  | error e => simp
  | ok cs =>
    cases w.queryRes f with
    | error m => simp
    | ok qr => simp

lemma close_not_mem_tryBody (w : World) :
    Event.close ∉ (tryBody w).1 := by
  have h1 := close_not_mem_run_sql_script w SqlFile.createTables
  have h2 := close_not_mem_run_sql_script w SqlFile.loadData
  have h3 := close_not_mem_run_sql_query w SqlFile.counts
  have h4 := close_not_mem_run_sql_query w SqlFile.kpi
  unfold tryBody
  split
  · exact h1
  · split
    · simp [List.mem_append, h1, h2]
    · split
      · simp [List.mem_append, h1, h2, h3]
      · simp [List.mem_append, h1, h2, h3, h4]

lemma pipelineMain_eq_of_connectOk (w : World) (h : connectResult w = none) :
    pipelineMain w
      = ([Event.header, Event.mkdirArtifacts, Event.connect]
          ++ (tryBody w).1 ++ [Event.close], (tryBody w).2) := by
  unfold pipelineMain
  rw [h]

lemma count_close_pipelineMain (w : World) (h : connectResult w = none) :
    ((pipelineMain w).1).count Event.close = 1 := by
  rw [pipelineMain_eq_of_connectOk w h]
  simp [List.count_append, List.count_eq_zero.mpr (close_not_mem_tryBody w)]

lemma getLast_pipelineMain (w : World) (h : connectResult w = none) :
    ((pipelineMain w).1).getLast? = some Event.close := by
  rw [pipelineMain_eq_of_connectOk w h]
  rw [show ([Event.header, Event.mkdirArtifacts, Event.connect]
      ++ (tryBody w).1 ++ [Event.close] : List Event)
      = [Event.header, Event.mkdirArtifacts, Event.connect]
        ++ ((tryBody w).1 ++ [Event.close]) from by simp]
  rw [List.getLast?_append_of_ne_nil _ (by simp)]
  rw [List.getLast?_append_of_ne_nil _ (by simp)]
  rfl

lemma tryBody_err_none_iff (w : World) :
    (tryBody w).2 = none
      ↔ (run_sql_script w SqlFile.createTables).2 = none
        ∧ (run_sql_script w SqlFile.loadData).2 = none
        ∧ (run_sql_query w SqlFile.counts).2 = none
        ∧ (run_sql_query w SqlFile.kpi).2 = none := by
  unfold tryBody
  cases h1 : (run_sql_script w SqlFile.createTables).2 with
  | some e => simp [h1]
  | none =>
    cases h2 : (run_sql_script w SqlFile.loadData).2 with
    | some e => simp [h1, h2]
    | none =>
      cases h3 : (run_sql_query w SqlFile.counts).2 with
      | some e => simp [h1, h2, h3]
      | none => simp [h1, h2, h3]

lemma tryBody_err_stage1 (w : World) (e : Err)
    (h : (run_sql_script w SqlFile.createTables).2 = some e) :
    (tryBody w).2 = some e := by
  unfold tryBody
  simp [h]

lemma tryBody_err_stage2 (w : World) (e : Err)
    (h1 : (run_sql_script w SqlFile.createTables).2 = none)
    (h : (run_sql_script w SqlFile.loadData).2 = some e) :
    (tryBody w).2 = some e := by
  unfold tryBody
  simp [h1, h]

lemma tryBody_err_stage3 (w : World) (e : Err)
    (h1 : (run_sql_script w SqlFile.createTables).2 = none)
    (h2 : (run_sql_script w SqlFile.loadData).2 = none)
    (h : (run_sql_query w SqlFile.counts).2 = some e) :
    (tryBody w).2 = some e := by
  unfold tryBody
  simp [h1, h2, h]

lemma tryBody_err_stage4 (w : World) (e : Err)
    (h1 : (run_sql_script w SqlFile.createTables).2 = none)
    (h2 : (run_sql_script w SqlFile.loadData).2 = none)
    (h3 : (run_sql_query w SqlFile.counts).2 = none)
    (h : (run_sql_query w SqlFile.kpi).2 = some e) :
    (tryBody w).2 = some e := by
  unfold tryBody
  simp [h1, h2, h3, h]

lemma tryBody_events_of_ok (w : World)
    (h1 : (run_sql_script w SqlFile.createTables).2 = none)
    (h2 : (run_sql_script w SqlFile.loadData).2 = none)
    (h3 : (run_sql_query w SqlFile.counts).2 = none) :
    (tryBody w).1
      = (run_sql_script w SqlFile.createTables).1
        ++ (run_sql_script w SqlFile.loadData).1
        ++ (run_sql_query w SqlFile.counts).1
        ++ (run_sql_query w SqlFile.kpi).1 := by
  unfold tryBody
  simp [h1, h2, h3]

lemma filter_stage_map_log (l : List String) :
    (l.map Event.log).filter isStageEvent = [] := by
  induction l with
  | nil => rfl
  | cons a t ih => simp [isStageEvent, ih]

lemma filter_stage_run_sql_script (w : World) (f : SqlFile)
    (h : (run_sql_script w f).2 = none) :
    ((run_sql_script w f).1).filter isStageEvent = [Event.execScript f] := by
  unfold run_sql_script at h ⊢
  cases hr : read_sql w f with
  | error e => simp [hr] at h
  | ok cs =>
    cases hs : w.scriptErr f with
    | some m => simp [hr, hs] at h
    | none => simp [hr, hs, isStageEvent]

lemma filter_stage_run_sql_query (w : World) (f : SqlFile)
    (h : (run_sql_query w f).2 = none) :
    ((run_sql_query w f).1).filter isStageEvent = [Event.execQuery f] := by
  unfold run_sql_query at h ⊢
  cases hr : read_sql w f with
  | error e => simp [hr] at h
  | ok cs =>
    cases hq : w.queryRes f with
    | error m => simp [hr, hq] at h
    | ok qr => simp [hr, hq, isStageEvent, filter_stage_map_log]

lemma foldl_append_lines (rows : List (List Value)) (pre : List String) :
    rows.foldl
        (fun acc row => acc ++ [String.intercalate ", " (row.map pyStr)]) pre
      = pre ++ rows.map (fun row => String.intercalate ", " (row.map pyStr)) := by
  induction rows generalizing pre with
  | nil => simp
  | cons r t ih => simp [List.foldl_cons, ih]

lemma reportBlock_eq (name : String) (qr : QueryResult) :
    reportBlock name qr
      = [delim, name, delim,
         String.intercalate ", " (qr.description.map Prod.fst)]
        ++ qr.rows.map (fun row => String.intercalate ", " (row.map pyStr)) := by
  unfold reportBlock
  exact foldl_append_lines qr.rows _

lemma findLoop_congr (fs fs' : MarkerFs) :
    ∀ (n : Nat) (cur : List String),
      (∀ i, i < n → fs.marker (iterParent i cur) = fs'.marker (iterParent i cur)) →
      findLoop fs n cur = findLoop fs' n cur := by
  intro n
  induction n with
  | zero => intro cur _; rfl
  | succ m ih =>
    intro cur h
    have h0 : fs.marker cur = fs'.marker cur := h 0 (Nat.succ_pos m)
    have hrest :
        ∀ i, i < m →
          fs.marker (iterParent i (parentDir cur))
            = fs'.marker (iterParent i (parentDir cur)) := by
      intro i hi
      have := h (i + 1) (Nat.succ_lt_succ hi)
      simpa [iterParent_succ_outer] using this
    unfold findLoop
    rw [h0, ih (parentDir cur) hrest]

lemma dbFile_isSome_applyEvent (w : World) (fs : FsState) (e : Event)
    (h : fs.dbFile.isSome = true) :
    ((applyEvent w fs e).dbFile).isSome = true := by
  cases e <;> simp [applyEvent, h]
  case connect =>
    cases hd : fs.dbFile with
    | none => simp
    | some c => simp [hd] at h ⊢

lemma dbFile_isSome_foldl (w : World) :
    ∀ (evs : List Event) (fs : FsState),
      fs.dbFile.isSome = true →
      (((evs.foldl (applyEvent w) fs)).dbFile).isSome = true := by
  intro evs
  induction evs with
  | nil => intro fs h; simpa using h
  | cons e t ih =>
    intro fs h
    exact ih (applyEvent w fs e) (dbFile_isSome_applyEvent w fs e h)

/-! ## Concrete test worlds -/

/-- A fixed two-row, two-column query result used in the witnesses. -/
def okQR : QueryResult :=
  ⟨[("branch_name", "VARCHAR"), ("n", "BIGINT")],
   [[Value.strV "Central", Value.intV 5], [Value.strV "East", Value.intV 120]]⟩

/-- A world in which every stage succeeds: all four SQL files hold the
ASCII bytes of "SELECT 1", the engine accepts every script, and every
query returns `okQR`. -/
def wOk : World where
  rootStr := "/repo"
  storageUnwritable := false
  dbCorrupt := false
  files := fun _ => some [0x53, 0x45, 0x4C, 0x45, 0x43, 0x54, 0x20, 0x31]
  scriptErr := fun _ => none
  queryRes := fun _ => Except.ok okQR
  dbMut := fun _ c => c + 1
  dbMutQ := fun _ c => c

/-- Like `wOk`, but the engine rejects the data-load script (e.g. a
duplicate primary key on reload). -/
def wBadLoad : World :=
  { wOk with
    scriptErr := fun f =>
      if f = SqlFile.loadData then some "Constraint Error" else none }

/-- Like `wOk`, but the storage location is unwritable, so
`duckdb.connect` fails. -/
def wConnFail : World := { wOk with storageUnwritable := true }

/-- Like `wOk`, but the create-tables file holds the single byte `0xFF`,
which is not valid UTF-8. -/
def wBadUtf8 : World := { wOk with files := fun _ => some [0xFF] }

/-! ## Claim theorems -/

/-- Claim C1: for every run in which connection acquisition succeeds, the
close operation is invoked exactly once and is the last event of the run —
after the last query on normal completion and during unwinding when a
script or query raises — so the connection is never closed twice, never
left open, and stays open across all script and query executions. -/
theorem claim_C1_connection_closed_exactly_once (w : World)
    (h : connectResult w = none) :
    ((pipelineMain w).1).count Event.close = 1
      ∧ ((pipelineMain w).1).getLast? = some Event.close :=
  ⟨count_close_pipelineMain w h, getLast_pipelineMain w h⟩

/-- Witness for C1: the close event occurs exactly once and last both in a
run where the data-load script raises mid-pipeline and in a fully
successful run. -/
theorem claim_C1_witness :
    (((pipelineMain wBadLoad).1).count Event.close = 1
        ∧ ((pipelineMain wBadLoad).1).getLast? = some Event.close)
      ∧ (((pipelineMain wOk).1).count Event.close = 1
        ∧ ((pipelineMain wOk).1).getLast? = some Event.close) :=
  ⟨claim_C1_connection_closed_exactly_once wBadLoad rfl,
   claim_C1_connection_closed_exactly_once wOk rfl⟩

/-- Claim C2: in a fully successful run the pipeline stages happen in
exactly the order resolve paths, connect, create-tables script, load-data
script, counts query, KPI query, close — and no other stage events occur. -/
theorem claim_C2_stage_order (w : World)
    (hc : connectResult w = none)
    (h1 : (run_sql_script w SqlFile.createTables).2 = none)
    (h2 : (run_sql_script w SqlFile.loadData).2 = none)
    (h3 : (run_sql_query w SqlFile.counts).2 = none)
    (h4 : (run_sql_query w SqlFile.kpi).2 = none) :
    ((pipeline w).1).filter isStageEvent
      = [Event.resolvePaths, Event.connect,
         Event.execScript SqlFile.createTables,
         Event.execScript SqlFile.loadData,
         Event.execQuery SqlFile.counts,
         Event.execQuery SqlFile.kpi, Event.close] := by
  have hm := pipelineMain_eq_of_connectOk w hc
  have ht := tryBody_events_of_ok w h1 h2 h3
  unfold pipeline
  rw [hm]
  simp only [ht]
  simp [List.filter_append, filter_stage_run_sql_script w _ h1,
        filter_stage_run_sql_script w _ h2,
        filter_stage_run_sql_query w _ h3,
        filter_stage_run_sql_query w _ h4, isStageEvent]

/-- Witness for C2: the fully successful concrete world produces exactly
the seven stage events in order. -/
theorem claim_C2_witness :
    ((pipeline wOk).1).filter isStageEvent
      = [Event.resolvePaths, Event.connect,
         Event.execScript SqlFile.createTables,
         Event.execScript SqlFile.loadData,
         Event.execQuery SqlFile.counts,
         Event.execQuery SqlFile.kpi, Event.close] :=
  claim_C2_stage_order wOk rfl rfl rfl rfl rfl

/-- Counterexample to C3 as stated: with no marker anywhere, the resolver
called on the unresolved directory `home/u/x/..` returns the resolved
directory `home/u`, not the original input unchanged (the code returns
`start.resolve()`, not `start`). -/
theorem claim_C3_counterexample :
    find_repo_root fsNone ["home", "u", "x", ".."] = ["home", "u"]
      ∧ ["home", "u"] ≠ ["home", "u", "x", ".."] := by
  refine ⟨rfl, fun hcontra => ?_⟩
  exact absurd (congrArg List.length hcontra) (by decide)

/-- Claim C3 (amended): when some directory among the resolved start and
its first nine ancestors contains the marker, the resolver returns the
nearest such directory; when none does, it returns the resolved starting
directory (`start.resolve()`); it has no other failure mode. -/
theorem claim_C3_resolver_contract (fs : MarkerFs) (start : List String) :
    (∀ i, i < 10 →
        fs.marker (iterParent i (resolve start)) = true →
        (∀ j, j < i → fs.marker (iterParent j (resolve start)) = false) →
        find_repo_root fs start = iterParent i (resolve start))
      ∧ ((∀ i, i < 10 → fs.marker (iterParent i (resolve start)) = false) →
          find_repo_root fs start = resolve start) := by
  constructor
  · intro i hi hmark hmin
    unfold find_repo_root
    rw [findLoop_eq_some fs 10 i (resolve start) hi hmark hmin]
  · intro h
    unfold find_repo_root
    rw [findLoop_eq_none fs 10 (resolve start) h]

/-- Witness for C3 (amended): the marker one level above `home/u/x` is
found and returned; with no marker at all the already-resolved start
`a/b` comes back unchanged. -/
theorem claim_C3_witness :
    find_repo_root fsHomeU ["home", "u", "x"] = ["home", "u"]
      ∧ find_repo_root fsNone ["a", "b"] = ["a", "b"] := by
  constructor
  · exact (claim_C3_resolver_contract fsHomeU ["home", "u", "x"]).1 1
      (by decide) (by decide) (fun j hj => by interval_cases j; decide)
  · exact (claim_C3_resolver_contract fsNone ["a", "b"]).2 (fun i _ => rfl)

/-- Claim C8: the walk examines exactly the resolved start and its first
nine ancestors — a marker in the start directory is found immediately, a
run with no marker among those ten directories falls back to the resolved
start whatever lies higher, and the result depends on nothing but the
marker values of those ten directories. -/
theorem claim_C8_bounded_walk (fs fs2 : MarkerFs) (start : List String) :
    (fs.marker (resolve start) = true →
        find_repo_root fs start = resolve start)
      ∧ ((∀ i, i < 10 → fs.marker (iterParent i (resolve start)) = false) →
          find_repo_root fs start = resolve start)
      ∧ ((∀ i, i < 10 →
            fs.marker (iterParent i (resolve start))
              = fs2.marker (iterParent i (resolve start))) →
          find_repo_root fs start = find_repo_root fs2 start) := by
  refine ⟨?_, ?_, ?_⟩
  · intro h
    unfold find_repo_root
    rw [findLoop_eq_some fs 10 0 (resolve start) (by norm_num) h
        (fun j hj => absurd hj (Nat.not_lt_zero j))]
    rfl
  · intro h
    unfold find_repo_root
    rw [findLoop_eq_none fs 10 (resolve start) h]
  · intro h
    unfold find_repo_root
    rw [findLoop_congr fs fs2 10 (resolve start) h]

/-- A filesystem whose only marker-bearing directory is the root `/`. -/
def fsRootOnly : MarkerFs := ⟨fun p => p == []⟩

/-- A ten-component starting directory: the root is its tenth ancestor. -/
def start10 : List String :=
  ["a", "b", "c", "d", "e", "f", "g", "h", "i", "j"]

/-- Witness for C8: a marker in the start directory is found immediately; a
marker only at the tenth ancestor (the root below `start10`) is never seen,
so the fallback fires and the run is indistinguishable from a marker-free
filesystem. -/
theorem claim_C8_witness :
    find_repo_root fsHomeU ["home", "u"] = ["home", "u"]
      ∧ find_repo_root fsRootOnly start10 = start10
      ∧ find_repo_root fsRootOnly start10 = find_repo_root fsNone start10 :=
  ⟨(claim_C8_bounded_walk fsHomeU fsHomeU ["home", "u"]).1 (by decide),
   (claim_C8_bounded_walk fsRootOnly fsRootOnly start10).2.1
     (by intro i hi; interval_cases i <;> decide),
   (claim_C8_bounded_walk fsRootOnly fsNone start10).2.2
     (by intro i hi; interval_cases i <;> decide)⟩

/-- Claim C4: on a successful query the emitted report is exactly the two
run lines, then the titled block — delimiter, query file name, delimiter, a
header that is the column names comma-joined in engine order, and exactly
one line per row holding the string-rendered values comma-joined, rows in
engine order — with no reordering of columns or rows. -/
theorem claim_C4_query_report (w : World) (f : SqlFile) (cs : List Nat)
    (qr : QueryResult)
    (hr : read_sql w f = Except.ok cs)
    (hq : w.queryRes f = Except.ok qr) :
    (run_sql_query w f).1
      = [Event.log "", Event.log ("RUN SQL query: " ++ sqlPathStr w f),
         Event.read f, Event.execQuery f]
        ++ ([delim, fileName f, delim,
             String.intercalate ", " (qr.description.map Prod.fst)]
            ++ qr.rows.map
                (fun row => String.intercalate ", " (row.map pyStr))).map Event.log
      ∧ (run_sql_query w f).2 = none := by
  unfold run_sql_query
  simp only [hr, hq]
  refine ⟨?_, by trivial⟩
  rw [reportBlock_eq]

/-- Witness for C4: the concrete two-row, two-column result produces
exactly the expected report lines. -/
theorem claim_C4_witness :
    (run_sql_query wOk SqlFile.counts).1
      = [Event.log "",
         Event.log ("RUN SQL query: " ++ sqlPathStr wOk SqlFile.counts),
         Event.read SqlFile.counts, Event.execQuery SqlFile.counts]
        ++ ([delim, fileName SqlFile.counts, delim,
             String.intercalate ", " (okQR.description.map Prod.fst)]
            ++ okQR.rows.map
                (fun row => String.intercalate ", " (row.map pyStr))).map Event.log
      ∧ (run_sql_query wOk SqlFile.counts).2 = none :=
  claim_C4_query_report wOk SqlFile.counts
    [0x53, 0x45, 0x4C, 0x45, 0x43, 0x54, 0x20, 0x31] okQR rfl rfl

/-- Claim C5: once the connection is open no error is caught, suppressed
or retried inside the pipeline — the run succeeds exactly when all four
stages succeed, the first failing stage propagates its error unchanged out
of `main`, and the close event still occurs. -/
theorem claim_C5_error_propagation (w : World) (e : Err)
    (hc : connectResult w = none) :
    ((pipelineMain w).2 = none
        ↔ (run_sql_script w SqlFile.createTables).2 = none
          ∧ (run_sql_script w SqlFile.loadData).2 = none
          ∧ (run_sql_query w SqlFile.counts).2 = none
          ∧ (run_sql_query w SqlFile.kpi).2 = none)
      ∧ ((run_sql_script w SqlFile.createTables).2 = some e →
          (pipelineMain w).2 = some e)
      ∧ ((run_sql_script w SqlFile.createTables).2 = none →
          (run_sql_script w SqlFile.loadData).2 = some e →
          (pipelineMain w).2 = some e)
      ∧ ((run_sql_script w SqlFile.createTables).2 = none →
          (run_sql_script w SqlFile.loadData).2 = none →
          (run_sql_query w SqlFile.counts).2 = some e →
          (pipelineMain w).2 = some e)
      ∧ ((run_sql_script w SqlFile.createTables).2 = none →
          (run_sql_script w SqlFile.loadData).2 = none →
          (run_sql_query w SqlFile.counts).2 = none →
          (run_sql_query w SqlFile.kpi).2 = some e →
          (pipelineMain w).2 = some e)
      ∧ Event.close ∈ (pipelineMain w).1 := by
  have hm := pipelineMain_eq_of_connectOk w hc
  have hsnd : (pipelineMain w).2 = (tryBody w).2 := by rw [hm]
  refine ⟨?_, ?_, ?_, ?_, ?_, ?_⟩
  · rw [hsnd]; exact tryBody_err_none_iff w
  · intro h; rw [hsnd]; exact tryBody_err_stage1 w e h
  · intro h1 h; rw [hsnd]; exact tryBody_err_stage2 w e h1 h
  · intro h1 h2 h; rw [hsnd]; exact tryBody_err_stage3 w e h1 h2 h
  · intro h1 h2 h3 h; rw [hsnd]; exact tryBody_err_stage4 w e h1 h2 h3 h
  · rw [hm]; simp

/-- Witness for C5: when the engine rejects the data-load script, that
exact execution error surfaces as the result of `main`, and the close
event still occurs. -/
theorem claim_C5_witness :
    (pipelineMain wBadLoad).2
        = some (Err.executionError SqlFile.loadData "Constraint Error")
      ∧ Event.close ∈ (pipelineMain wBadLoad).1 :=
  ⟨(claim_C5_error_propagation wBadLoad
      (Err.executionError SqlFile.loadData "Constraint Error") rfl).2.2.1 rfl rfl,
   (claim_C5_error_propagation wBadLoad
      (Err.executionError SqlFile.loadData "Constraint Error") rfl).2.2.2.2.2⟩

/-- Claim C6: connection acquisition fails with `ConnectionError` when the
storage location is unwritable or the database file is corrupt, and such a
failure aborts the pipeline before any script runs or any SQL file is
read (modelled from the spec for the third-party `duckdb.connect`). -/
theorem claim_C6_connect_failure_aborts (w : World)
    (h : w.storageUnwritable = true ∨ w.dbCorrupt = true) :
    (pipelineMain w).2 = some Err.connectionError
      ∧ (∀ f, Event.execScript f ∉ (pipelineMain w).1)
      ∧ (∀ f, Event.read f ∉ (pipelineMain w).1) := by
  have hc : connectResult w = some Err.connectionError := by
    unfold connectResult
    rcases h with h | h <;> simp [h]
  unfold pipelineMain
  rw [hc]
  refine ⟨rfl, ?_, ?_⟩ <;> intro f <;> simp

/-- Witness for C6: with an unwritable storage location the run ends with
`ConnectionError` and the create-tables script never executes. -/
theorem claim_C6_witness :
    (pipelineMain wConnFail).2 = some Err.connectionError
      ∧ Event.execScript SqlFile.createTables ∉ (pipelineMain wConnFail).1 :=
  ⟨(claim_C6_connect_failure_aborts wConnFail (Or.inl rfl)).1,
   (claim_C6_connect_failure_aborts wConnFail (Or.inl rfl)).2.1
     SqlFile.createTables⟩

/-- Claim C7: opening the connection creates the database file when
absent, reuses a pre-existing file without truncation; `mkdir` creates the
parent directories; and no step of the pipeline ever deletes a
pre-existing database file (connect behaviour modelled from the spec for
the third-party `duckdb.connect`). -/
theorem claim_C7_db_file_preserved (w : World) (fs : FsState) (c : Nat) :
    (fs.dbFile = some c → applyEvent w fs Event.connect = fs)
      ∧ (fs.dbFile = none → (applyEvent w fs Event.connect).dbFile = some 0)
      ∧ (applyEvent w fs Event.mkdirArtifacts).artifactsDirExists = true
      ∧ (fs.dbFile.isSome = true → ((fsAfter w fs).dbFile).isSome = true) := by
  refine ⟨?_, ?_, ?_, ?_⟩
  · intro h; simp [applyEvent, h]
  · intro h; simp [applyEvent, h]
  · simp [applyEvent]
  · intro h; exact dbFile_isSome_foldl w ((pipelineMain w).1) fs h

/-- Witness for C7: a database file with content `5` survives the connect
step untouched and is still present after a whole successful run; an
absent file is created by the connect step. -/
theorem claim_C7_witness :
    applyEvent wOk ⟨false, some 5⟩ Event.connect = ⟨false, some 5⟩
      ∧ (applyEvent wOk ⟨true, none⟩ Event.connect).dbFile = some 0
      ∧ (applyEvent wOk ⟨false, some 5⟩ Event.mkdirArtifacts).artifactsDirExists
          = true
      ∧ ((fsAfter wOk ⟨false, some 5⟩).dbFile).isSome = true :=
  ⟨(claim_C7_db_file_preserved wOk ⟨false, some 5⟩ 5).1 rfl,
   (claim_C7_db_file_preserved wOk ⟨true, none⟩ 0).2.1 rfl,
   (claim_C7_db_file_preserved wOk ⟨false, some 5⟩ 5).2.2.1,
   (claim_C7_db_file_preserved wOk ⟨false, some 5⟩ 5).2.2.2 rfl⟩

/-- Claim C9: a SQL file is read strictly as UTF-8 — `read_sql` fails with
a decode error exactly when the bytes on disk are not valid UTF-8 — and
such a failure on the first script, like any mid-pipeline error, aborts
the run while the connection is still released exactly once. -/
theorem claim_C9_strict_utf8 (w : World) (f : SqlFile) :
    (read_sql w f = Except.error (Err.unicodeDecodeError f)
        ↔ ∃ bs, w.files f = some bs ∧ utf8Decode bs = none)
      ∧ (connectResult w = none →
          ∀ bs, w.files SqlFile.createTables = some bs →
            utf8Decode bs = none →
            (pipelineMain w).2
                = some (Err.unicodeDecodeError SqlFile.createTables)
              ∧ ((pipelineMain w).1).count Event.close = 1) := by
  constructor
  · unfold read_sql
    cases hb : w.files f with
    | none => simp [hb]
    | some bs =>
      cases hd : utf8Decode bs with
      | none => simp [hb, hd]
      | some cs => simp [hb, hd]
  · intro hc bs hb hd
    have hs1 : (run_sql_script w SqlFile.createTables).2
        = some (Err.unicodeDecodeError SqlFile.createTables) := by
      unfold run_sql_script read_sql
      simp [hb, hd]
    refine ⟨?_, count_close_pipelineMain w hc⟩
    rw [pipelineMain_eq_of_connectOk w hc]
    exact tryBody_err_stage1 w _ hs1

/-- Witness for C9: the byte `0xFF` is not valid UTF-8, the read of the
create-tables file fails with the decode error, the run aborts with that
error, and close still happens exactly once. -/
theorem claim_C9_witness :
    read_sql wBadUtf8 SqlFile.createTables
        = Except.error (Err.unicodeDecodeError SqlFile.createTables)
      ∧ (pipelineMain wBadUtf8).2
          = some (Err.unicodeDecodeError SqlFile.createTables)
      ∧ ((pipelineMain wBadUtf8).1).count Event.close = 1 :=
  ⟨(claim_C9_strict_utf8 wBadUtf8 SqlFile.createTables).1.mpr ⟨[0xFF], rfl, rfl⟩,
   ((claim_C9_strict_utf8 wBadUtf8 SqlFile.createTables).2 rfl [0xFF] rfl rfl).1,
   ((claim_C9_strict_utf8 wBadUtf8 SqlFile.createTables).2 rfl [0xFF] rfl rfl).2⟩

/-- Claim C10: if connection acquisition itself raises, cleanup never
runs — the run stops after the header and mkdir, close is called zero
times, no SQL file is read and no script or query executes, and the
acquisition error is the result of `main`. -/
theorem claim_C10_no_cleanup_on_connect_failure (w : World) (e : Err)
    (h : connectResult w = some e) :
    (pipelineMain w).1 = [Event.header, Event.mkdirArtifacts]
      ∧ (pipelineMain w).2 = some e
      ∧ ((pipelineMain w).1).count Event.close = 0
      ∧ (∀ f, Event.read f ∉ (pipelineMain w).1)
      ∧ (∀ f, Event.execScript f ∉ (pipelineMain w).1)
      ∧ (∀ f, Event.execQuery f ∉ (pipelineMain w).1) := by
  unfold pipelineMain
  rw [h]
  refine ⟨rfl, rfl, rfl, ?_, ?_, ?_⟩ <;> intro f <;> simp

/-- Witness for C10: with a failing connect the whole trace is just the
header and mkdir events, no close, no read. -/
theorem claim_C10_witness :
    (pipelineMain wConnFail).1 = [Event.header, Event.mkdirArtifacts]
      ∧ (pipelineMain wConnFail).2 = some Err.connectionError
      ∧ ((pipelineMain wConnFail).1).count Event.close = 0
      ∧ Event.read SqlFile.createTables ∉ (pipelineMain wConnFail).1 := by
  obtain ⟨a, b, c, d, _, _⟩ :=
    claim_C10_no_cleanup_on_connect_failure wConnFail Err.connectionError rfl
  exact ⟨a, b, c, d SqlFile.createTables⟩
